import Mathlib

/-!
Shallow embedding of the agent-course repository: the course-01 intent-routing
LangGraph workflow (`src/agent.py`), the course-02 EcoHome synthetic-data and
savings tools (`ecohome_starter/tools.py`), and the course-03 CultPass support
tools and orchestrator (`agentic/tools/*.py`, `agentic/workflow.py`).

LLM calls and random draws are modelled as oracle parameters: a function
argument supplies the value the external call would return, and the embedded
definitions perform exactly the computation the Python source performs on it.
Python floats are modelled as rationals; `round(x, n)` is `pyRound n x`
(round half to even, as Python's `round` on exact values).
-/

/-- Floor of a rational (`Int.fdiv` of numerator by denominator),
kernel-reducible replacement for `Int.floor` on `ℚ`. -/
def ratFloor (q : ℚ) : ℤ := Int.fdiv q.num q.den

/-- Round a rational to the nearest integer, halves to even (Python `round`). -/
def rndHalfEven (x : ℚ) : ℤ :=
  let f := ratFloor x
  let r := x - (f : ℚ)
  if r < 1/2 then f
  else if 1/2 < r then f + 1
  else if f % 2 = 0 then f else f + 1

/-- Python's `round(x, d)` for `d` decimal digits, on exact rationals. -/
def pyRound (d : Nat) (x : ℚ) : ℚ := ((rndHalfEven (x * (10:ℚ) ^ d) : ℤ) : ℚ) / (10:ℚ) ^ d

/-- Python `str.lower()` (ASCII case folding, as `Char.toLower`). -/
def lowerStr (s : String) : String := ⟨s.data.map Char.toLower⟩

/-- Python's substring test `needle in hay`. -/
def occursIn (needle hay : String) : Bool := decide (needle.data <:+: hay.data)

/-- Helper for `pySplitWs`: cut a character list at whitespace characters. -/
def splitWsAux : List Char → List Char → List String
  | [], acc => [⟨acc.reverse⟩]
  | c :: cs, acc =>
    if c.isWhitespace then ⟨acc.reverse⟩ :: splitWsAux cs []
    else splitWsAux cs (c :: acc)

/-- Python's `str.split()` with no arguments: split on whitespace runs and
drop empty pieces. -/
def pySplitWs (s : String) : List String :=
  (splitWsAux s.data []).filter (fun p => p ≠ "")

/-- Python `max` over a list (0 on the empty list, which Python rejects). -/
def listMax : List ℚ → ℚ
  | [] => 0
  | x :: xs => xs.foldl max x

/-- Python `min` over a list (0 on the empty list, which Python rejects). -/
def listMin : List ℚ → ℚ
  | [] => 0
  | x :: xs => xs.foldl min x

/-- Python `range(a, b)`. -/
def pyrange (a b : Nat) : List Nat := (List.range (b - a)).map (a + ·)

/-- A LangGraph checkpointer choice, as far as this repository configures it. -/
inductive Checkpointer
  | memorySaver
  | noSaver
deriving DecidableEq

namespace Agent

/-- A LangChain message, as far as `agent.py` inspects messages:
`invoke_react_agent` only tests `isinstance(t, ToolMessage)` and reads `.name`. -/
inductive Msg
  | human (content : String)
  | ai (content : String)
  | system (content : String)
  | tool (toolName content : String)
deriving DecidableEq

/-- `[t.name for t in result.get("messages", []) if isinstance(t, ToolMessage)]` -/
def toolsUsedOf (msgs : List Msg) : List String :=
  msgs.filterMap fun m =>
    match m with
    | .tool n _ => some n
    | _ => none

/-- The dictionary a prebuilt ReAct agent invocation returns, as far as
`agent.py` reads it: its `messages` list. Produced by the LLM oracle. -/
structure ReactResult where
  messages : List Msg
deriving DecidableEq

/-- `invoke_react_agent`: returns the agent result together with the names of
the `ToolMessage`s it contains (the `tools_used` list). The agent invocation
itself is the oracle argument `result`. -/
def invoke_react_agent (result : ReactResult) : ReactResult × List String :=
  (result, toolsUsedOf result.messages)

/-- Modelled from the spec: `schemas.py` is not part of the sources; agent.py
reads `response.summary` and `response.document_ids` from the structured
`UpdateMemoryResponse` the LLM returns. -/
structure UpdateMemoryResponse where
  summary : String
  document_ids : List String
deriving DecidableEq

/-- The `AgentState` TypedDict. The `intent` field stores the classified
intent's `intent_type` string (`schemas.UserIntent` is not in the sources;
`agent.py` only reads `intent.intent_type`). -/
structure AgentState where
  user_input : Option String
  messages : List Msg
  intent : Option String
  next_step : String
  conversation_summary : String
  active_documents : Option (List String)
  current_response : Option ReactResult
  tools_used : List String
  session_id : Option String
  user_id : Option String
  actions_taken : List String
deriving DecidableEq

/-- The `operator.add` reducer annotated on `actions_taken` (line 48). -/
def actionsReducer (old new : List String) : List String := old ++ new

/-- The `add_messages` reducer on `messages`, modelled as append. -/
def messagesReducer (old new : List Msg) : List Msg := old ++ new

/-- A partial state update: the dictionary a node function returns.
`none` means the key is absent from the returned dict. -/
structure NodeUpdate where
  messages : List Msg := []
  actions_taken : List String := []
  intent : Option (Option String) := none
  next_step : Option String := none
  conversation_summary : Option String := none
  active_documents : Option (Option (List String)) := none
  current_response : Option (Option ReactResult) := none
  tools_used : Option (List String) := none
deriving DecidableEq

/-- How LangGraph merges a node's returned dict into the state: annotated
fields go through their reducer, the rest are overwritten when present. -/
def applyNode (s : AgentState) (u : NodeUpdate) : AgentState :=
  { user_input := s.user_input
    messages := messagesReducer s.messages u.messages
    intent := u.intent.getD s.intent
    next_step := u.next_step.getD s.next_step
    conversation_summary := u.conversation_summary.getD s.conversation_summary
    active_documents := u.active_documents.getD s.active_documents
    current_response := u.current_response.getD s.current_response
    tools_used := u.tools_used.getD s.tools_used
    session_id := s.session_id
    user_id := s.user_id
    actions_taken := actionsReducer s.actions_taken u.actions_taken }

/-- The intent-to-next-step dispatch in `classify_intent` (lines 104-111). -/
def classifyNextStep (intent_type : String) : String :=
  if intent_type = "qa" then "qa_agent"
  else if intent_type = "summarization" then "summarization_agent"
  else if intent_type = "calculation" then "calculation_agent"
  else "qa_agent"

/-- `classify_intent`: the LLM's structured classification is the oracle
argument `intent_type`; the node stores it, dispatches `next_step` on it, and
records its own name. -/
def classify_intent (intent_type : String) : NodeUpdate :=
  { actions_taken := ["classify_intent"]
    intent := some (some intent_type)
    next_step := some (classifyNextStep intent_type) }

/-- `qa_agent`: the ReAct invocation is the oracle argument `r`. -/
def qa_agent (r : ReactResult) : NodeUpdate :=
  { messages := (invoke_react_agent r).1.messages
    actions_taken := ["qa_agent"]
    current_response := some (some r)
    tools_used := some (invoke_react_agent r).2
    next_step := some "update_memory" }

/-- `summarization_agent`: the ReAct invocation is the oracle argument `r`. -/
def summarization_agent (r : ReactResult) : NodeUpdate :=
  { messages := (invoke_react_agent r).1.messages
    actions_taken := ["summarization_agent"]
    current_response := some (some r)
    tools_used := some (invoke_react_agent r).2
    next_step := some "update_memory" }

/-- `calculation_agent`: the ReAct invocation is the oracle argument `r`. -/
def calculation_agent (r : ReactResult) : NodeUpdate :=
  { messages := (invoke_react_agent r).1.messages
    actions_taken := ["calculation_agent"]
    current_response := some (some r)
    tools_used := some (invoke_react_agent r).2
    next_step := some "update_memory" }

/-- `update_memory`: the LLM's structured summary is the oracle argument. -/
def update_memory (resp : UpdateMemoryResponse) : NodeUpdate :=
  { conversation_summary := some resp.summary
    active_documents := some (some resp.document_ids)
    next_step := some "end"
    actions_taken := ["update_memory"] }

/-- `should_continue`: the router function returns `state["next_step"]`. -/
def should_continue (s : AgentState) : String := s.next_step

/-- One node execution together with its oracle payload. -/
inductive NodeCall
  | classify (intent_type : String)
  | qa (r : ReactResult)
  | summarize (r : ReactResult)
  | calculate (r : ReactResult)
  | memory (resp : UpdateMemoryResponse)
deriving DecidableEq

/-- The update dict the given node execution returns. -/
def nodeUpdate : NodeCall → NodeUpdate
  | .classify i => classify_intent i
  | .qa r => qa_agent r
  | .summarize r => summarization_agent r
  | .calculate r => calculation_agent r
  | .memory resp => update_memory resp

/-- The graph node name of a node execution. -/
def nodeName : NodeCall → String
  | .classify _ => "classify_intent"
  | .qa _ => "qa_agent"
  | .summarize _ => "summarization_agent"
  | .calculate _ => "calculation_agent"
  | .memory _ => "update_memory"

/-- Execute a sequence of node calls against the state, merging each returned
dict with `applyNode`. -/
def runNodes (s : AgentState) : List NodeCall → AgentState
  | [] => s
  | c :: cs => runNodes (applyNode s (nodeUpdate c)) cs

/-- LangGraph's `END` sentinel node name. -/
def endSentinel : String := "__end__"

/-- The dispatch table passed to `add_conditional_edges` (lines 252-258). -/
def conditionalEdgeMap : List (String × String) :=
  [("qa_agent", "qa_agent"),
   ("summarization_agent", "summarization_agent"),
   ("calculation_agent", "calculation_agent"),
   ("end", endSentinel)]

/-- The compiled-workflow configuration, as far as `create_workflow` sets it. -/
structure CompiledWorkflow where
  nodes : List String
  entryPoint : String
  conditionalEdgeSource : String
  conditionalEdges : List (String × String)
  edges : List (String × String)
  checkpointer : Checkpointer
deriving DecidableEq

/-- `create_workflow`: the graph wiring and the `MemorySaver` checkpointer. -/
def create_workflow : CompiledWorkflow :=
  { nodes := ["classify_intent", "qa_agent", "summarization_agent",
              "calculation_agent", "update_memory"]
    entryPoint := "classify_intent"
    conditionalEdgeSource := "classify_intent"
    conditionalEdges := conditionalEdgeMap
    edges := [("qa_agent", "update_memory"),
              ("summarization_agent", "update_memory"),
              ("calculation_agent", "update_memory"),
              ("update_memory", endSentinel)]
    checkpointer := Checkpointer.memorySaver }

end Agent

namespace EcoHome

/-- The `pricing_tiers` configuration of `get_electricity_prices`
(name, base rate, member hours). -/
def pricingTiers : List (String × ℚ × List Nat) :=
  [("off_peak", 0.10, pyrange 0 6 ++ pyrange 23 24),
   ("partial_peak", 0.15, pyrange 6 16 ++ pyrange 21 23),
   ("peak", 0.25, pyrange 16 21)]

/-- The tier lookup loop: first tier whose hour list contains the hour,
defaulting to `("partial_peak", 0.15)`. -/
def tierFor (hour : Nat) : String × ℚ :=
  match pricingTiers.find? (fun t => t.2.2.contains hour) with
  | some t => (t.1, t.2.1)
  | none => ("partial_peak", 0.15)

/-- One element of the `hourly_rates` list. -/
structure HourlyRate where
  hour : Nat
  rate : ℚ
  period : String
  demand_charge : ℚ
  total_rate : ℚ
deriving DecidableEq

/-- The `hourly_rates` entry computed for one hour: the random rate variation
draw is the oracle argument `variation`. -/
def hourlyRateEntry (variation : Nat → ℚ) (hour : Nat) : HourlyRate :=
  let period := (tierFor hour).1
  let rate := (tierFor hour).2
  let demand_charge : ℚ := if period = "peak" then 0.05 else 0.0
  let final_rate := pyRound 3 (rate + variation hour)
  { hour := hour
    rate := final_rate
    period := period
    demand_charge := demand_charge
    total_rate := pyRound 3 (final_rate + demand_charge) }

/-- The dict `get_electricity_prices` returns (the static `summary` block is
omitted; it is a constant). -/
structure Prices where
  date : String
  pricing_type : String
  currency : String
  unit : String
  hourly_rates : List HourlyRate
deriving DecidableEq

/-- `get_electricity_prices`: `today` models `datetime.now().strftime(...)`,
`variation` the per-hour `random.uniform(-0.01, 0.01)` draw. -/
def get_electricity_prices (variation : Nat → ℚ) (today : String)
    (date : Option String) : Prices :=
  { date := date.getD today
    pricing_type := "time_of_use"
    currency := "USD"
    unit := "per_kWh"
    hourly_rates := (List.range 24).map (hourlyRateEntry variation) }

/-- The four `weather_types` keys, indexed as `list(weather_types.keys())`. -/
def conditionName : Fin 4 → String
  | 0 => "sunny"
  | 1 => "partly_cloudy"
  | 2 => "cloudy"
  | 3 => "rainy"

/-- The `irradiance_range` entry of each weather type. -/
def irradiance_range : Fin 4 → ℚ × ℚ
  | 0 => (800, 1000)
  | 1 => (400, 700)
  | 2 => (100, 350)
  | 3 => (50, 150)

/-- The `weight` entry of each weather type. -/
def conditionWeight : Fin 4 → ℚ
  | 0 => 0.4
  | 1 => 0.35
  | 2 => 0.2
  | 3 => 0.05

/-- The random draws `get_weather_forecast` makes, as oracle functions.
Conditions are drawn as indices into the `weather_types` table, mirroring
`random.choices(list(weather_types.keys()), ...)`. -/
structure WRand where
  currentCondition : Fin 4
  currentTemp : ℚ
  currentHumidity : ℤ
  currentWind : ℚ
  dayCondition : Nat → Fin 4
  baseTempNoise : Nat → Nat → ℚ
  matchesDaily : Nat → Nat → Bool
  altCondition : Nat → Nat → Fin 4
  uniformIrr : Nat → Nat → ℚ → ℚ → ℚ
  hourHumidity : Nat → Nat → ℤ
  hourWind : Nat → Nat → ℚ
  dateStr : Nat → String

/-- `hour_factor = 1 - abs(hour - 14) / 14`. -/
def hourFactor (hour : Nat) : ℚ := 1 - |(hour : ℚ) - 14| / 14

/-- `solar_factor = max(0, 1 - abs(hour - 13) / 7)`. -/
def solarFactor (hour : Nat) : ℚ := max 0 (1 - |(hour : ℚ) - 13| / 7)

/-- `temp = (12 + noise) + 15 * hour_factor` (noise is `random.uniform(-2,2)`). -/
def hourTemp (g : WRand) (day hour : Nat) : ℚ :=
  (12 + g.baseTempNoise day hour) + 15 * hourFactor hour

/-- With probability 0.8 the hour keeps the daily condition, otherwise an
independently drawn one. -/
def hourCondition (g : WRand) (dayCond : Fin 4) (day hour : Nat) : Fin 4 :=
  if g.matchesDaily day hour then dayCond else g.altCondition day hour

/-- Solar irradiance of one hour: `round(uniform(lo, hi) * solar_factor, 1)`
during daylight hours 6..20, `0` otherwise. -/
def hourIrradiance (g : WRand) (cond : Fin 4) (day hour : Nat) : ℚ :=
  if 6 ≤ hour ∧ hour ≤ 20 then
    pyRound 1 (g.uniformIrr day hour (irradiance_range cond).1 (irradiance_range cond).2
      * solarFactor hour)
  else 0

/-- One element of the `hourly` forecast list. -/
structure HourEntry where
  day : Nat
  hour : Nat
  temperature_c : ℚ
  condition : String
  solar_irradiance : ℚ
  humidity : ℤ
  wind_speed : ℚ
deriving DecidableEq

/-- One element of the `daily` forecast list. -/
structure DayEntry where
  day : Nat
  date : String
  condition : String
  high_temp_c : ℚ
  low_temp_c : ℚ
  solar_generation_potential_kwh : ℚ
deriving DecidableEq

/-- The hourly entry generated for one (day, hour). -/
def mkHourEntry (g : WRand) (dayCond : Fin 4) (day hour : Nat) : HourEntry :=
  let cond := hourCondition g dayCond day hour
  { day := day
    hour := hour
    temperature_c := pyRound 1 (hourTemp g day hour)
    condition := conditionName cond
    solar_irradiance := hourIrradiance g cond day hour
    humidity := g.hourHumidity day hour
    wind_speed := pyRound 1 (g.hourWind day hour) }

/-- The 24 hourly entries of one forecast day. -/
def dayHours (g : WRand) (day : Nat) : List HourEntry :=
  (List.range 24).map (mkHourEntry g (g.dayCondition day) day)

/-- The daily summary for one forecast day. The generation potential sums
`solar_irradiance / 1000` over the daylight hours; since night hours have
irradiance 0, summing all 24 entries is the same sum. -/
def mkDayEntry (g : WRand) (day : Nat) : DayEntry :=
  let temps := (List.range 24).map (hourTemp g day)
  { day := day
    date := g.dateStr day
    condition := conditionName (g.dayCondition day)
    high_temp_c := pyRound 1 (listMax temps)
    low_temp_c := pyRound 1 (listMin temps)
    solar_generation_potential_kwh :=
      pyRound 2 (((dayHours g day).map (fun e => e.solar_irradiance / 1000)).sum) }

/-- The `current` weather block. -/
structure CurrentWeather where
  temperature_c : ℚ
  condition : String
  humidity : ℤ
  wind_speed : ℚ
deriving DecidableEq

/-- The dict `get_weather_forecast` returns. -/
structure Forecast where
  location : String
  forecast_days : ℤ
  current : CurrentWeather
  hourly : List HourEntry
  daily : List DayEntry
deriving DecidableEq

/-- `days = max(1, min(7, days))`. -/
def clampDays (days : ℤ) : ℤ := max 1 (min 7 days)

/-- `get_weather_forecast`, with all random draws supplied by `g`. -/
def get_weather_forecast (g : WRand) (location : String) (days : ℤ) : Forecast :=
  let d := clampDays days
  { location := location
    forecast_days := d
    current :=
      { temperature_c := pyRound 1 g.currentTemp
        condition := conditionName g.currentCondition
        humidity := g.currentHumidity
        wind_speed := pyRound 1 g.currentWind }
    hourly := (List.range d.toNat).flatMap (dayHours g)
    daily := (List.range d.toNat).map (mkDayEntry g) }

/-- `savings_kwh = current_usage_kwh - optimized_usage_kwh` (line 445). -/
def savings_kwh (current_usage_kwh optimized_usage_kwh : ℚ) : ℚ :=
  current_usage_kwh - optimized_usage_kwh

/-- `savings_usd = savings_kwh * price_per_kwh` (line 446). -/
def savings_usd (current_usage_kwh optimized_usage_kwh price_per_kwh : ℚ) : ℚ :=
  savings_kwh current_usage_kwh optimized_usage_kwh * price_per_kwh

/-- `savings_percentage = (savings_kwh / current_usage_kwh) * 100 if
current_usage_kwh > 0 else 0` (line 447). -/
def savings_percentage (current_usage_kwh optimized_usage_kwh : ℚ) : ℚ :=
  if 0 < current_usage_kwh then
    (savings_kwh current_usage_kwh optimized_usage_kwh / current_usage_kwh) * 100
  else 0

/-- The dict `calculate_energy_savings` returns. -/
structure SavingsResult where
  device_type : String
  current_usage_kwh : ℚ
  optimized_usage_kwh : ℚ
  savings_kwh : ℚ
  savings_usd : ℚ
  savings_percentage : ℚ
  price_per_kwh : ℚ
  annual_savings_usd : ℚ
deriving DecidableEq

/-- `calculate_energy_savings`. -/
def calculate_energy_savings (device_type : String)
    (current_usage_kwh optimized_usage_kwh price_per_kwh : ℚ) : SavingsResult :=
  { device_type := device_type
    current_usage_kwh := current_usage_kwh
    optimized_usage_kwh := optimized_usage_kwh
    savings_kwh := pyRound 2 (savings_kwh current_usage_kwh optimized_usage_kwh)
    savings_usd := pyRound 2 (savings_usd current_usage_kwh optimized_usage_kwh price_per_kwh)
    savings_percentage := pyRound 1 (savings_percentage current_usage_kwh optimized_usage_kwh)
    price_per_kwh := price_per_kwh
    annual_savings_usd :=
      pyRound 2 (savings_usd current_usage_kwh optimized_usage_kwh price_per_kwh * 365) }

end EcoHome

/-- A SQLAlchemy session, as far as the course-03 tools configure it:
the SQLite database file it is bound to. -/
structure DbSession where
  dbPath : String
deriving DecidableEq

namespace Cultpass

/-- A `cultpass.User` row, with the fields `user_tools.py` reads.
`created_at` holds the ISO string of the timestamp (or `none` for NULL). -/
structure User where
  user_id : String
  full_name : String
  email : String
  is_blocked : Bool
  created_at : Option String
deriving DecidableEq

/-- A `cultpass.Experience` row, with the fields `experience_tools.py` reads.
`when` is the event timestamp on a linear time axis (`none` for NULL). -/
structure Experience where
  experience_id : String
  title : String
  description : String
  location : String
  whenAt : Option ℚ
  slots_available : ℤ
  is_premium : Bool
deriving DecidableEq

end Cultpass

namespace Udahub

/-- A `udahub.Knowledge` row, with the fields `knowledge_tools.py` reads.
Nullable text columns are `Option String`. -/
structure Knowledge where
  account_id : String
  article_id : String
  title : Option String
  content : Option String
  tags : Option String
deriving DecidableEq

/-- A `udahub.TicketMetadata` row, with the fields `ticket_tools.py`
reads and writes. -/
structure TicketMetadata where
  ticket_id : String
  status : String
  main_issue_type : Option String
  tags : Option String
deriving DecidableEq

end Udahub

/-- Python truthiness of an optional string (`None` and `""` are falsy). -/
def truthy : Option String → Bool
  | none => false
  | some s => decide (s ≠ "")

namespace UserTools

/-- `CULTPASS_DB = "data/external/cultpass.db"` in `user_tools.py`. -/
def CULTPASS_DB : String := "data/external/cultpass.db"

/-- `get_db_session` in `user_tools.py`: a session bound to the cultpass db. -/
def get_db_session : DbSession := ⟨CULTPASS_DB⟩

/-- The dict `get_user_info` returns. -/
inductive UserInfoResult
  | ok (user_id full_name email : String) (is_blocked : Bool) (created_at : Option String)
  | err (msg : String)
deriving DecidableEq

/-- `get_user_info`: look up the first user row matching the email; the
database state (a list of rows) is passed and returned explicitly. -/
def get_user_info (db : List Cultpass.User) (user_email : String) :
    UserInfoResult × List Cultpass.User :=
  match db.find? (fun u => u.email == user_email) with
  | some u => (.ok u.user_id u.full_name u.email u.is_blocked u.created_at, db)
  | none => (.err ("User with email " ++ user_email ++ " not found"), db)

end UserTools

namespace ExperienceTools

/-- `CULTPASS_DB = "data/external/cultpass.db"` in `experience_tools.py`. -/
def CULTPASS_DB : String := "data/external/cultpass.db"

/-- `get_db_session` in `experience_tools.py`. -/
def get_db_session : DbSession := ⟨CULTPASS_DB⟩

/-- The dict `get_experience_details` returns. -/
inductive ExperienceResult
  | ok (experience_id title description location : String) (whenAt : Option ℚ)
      (slots_available : ℤ) (is_premium : Bool) (is_upcoming : Bool)
  | err (msg : String)
deriving DecidableEq

/-- `is_upcoming = experience.when >= datetime.now() if experience.when else False`. -/
def isUpcoming (now : ℚ) (whenAt : Option ℚ) : Bool :=
  match whenAt with
  | some w => decide (now ≤ w)
  | none => false

/-- `get_experience_details`: look up the first experience row matching the id;
`now` models `datetime.now()`. -/
def get_experience_details (now : ℚ) (db : List Cultpass.Experience)
    (experience_id : String) : ExperienceResult × List Cultpass.Experience :=
  match db.find? (fun e => e.experience_id == experience_id) with
  | some e =>
    (.ok e.experience_id e.title e.description e.location e.whenAt
      e.slots_available e.is_premium (isUpcoming now e.whenAt), db)
  | none => (.err ("Experience with ID " ++ experience_id ++ " not found"), db)

end ExperienceTools

namespace KnowledgeTools

/-- `UDAHUB_DB = "data/core/udahub.db"` in `knowledge_tools.py`. -/
def UDAHUB_DB : String := "data/core/udahub.db"

/-- `get_db_session` in `knowledge_tools.py`: a session bound to the udahub db. -/
def get_db_session : DbSession := ⟨UDAHUB_DB⟩

/-- `article.title.lower() if article.title else ""` (likewise for content
and tags): lowercase a nullable column, with `""` for NULL. -/
def fieldLower : Option String → String
  | some s => lowerStr s
  | none => ""

/-- The three keyword checks for one query term: `+3` if the term occurs in
the (lowercased) title, `+1` if in the content, `+2` if in the tags. -/
def termScore (title content tags term : String) : Nat :=
  (if occursIn term title then 3 else 0) +
  (if occursIn term content then 1 else 0) +
  (if occursIn term tags then 2 else 0)

/-- The relevance score of an article for a query: the sum of `termScore`
over the whitespace-separated terms of the lowercased query. -/
def articleScore (query : String) (a : Udahub.Knowledge) : Nat :=
  ((pySplitWs (lowerStr query)).map
    (termScore (fieldLower a.title) (fieldLower a.content) (fieldLower a.tags))).sum

/-- One element of the result list of `search_knowledge_base`. -/
structure SearchHit where
  article_id : String
  title : Option String
  content : Option String
  tags : Option String
  relevance_score : Nat
deriving DecidableEq

/-- Stable descending insertion by `relevance_score`: the new element goes
after every element with a score at least as large. -/
def insertByScore (x : SearchHit) : List SearchHit → List SearchHit
  | [] => [x]
  | y :: ys =>
    if x.relevance_score ≤ y.relevance_score then y :: insertByScore x ys
    else x :: y :: ys

/-- `results.sort(key=lambda x: x["relevance_score"], reverse=True)`:
a stable sort into non-increasing score order. -/
def sortByScoreDesc (l : List SearchHit) : List SearchHit :=
  l.foldl (fun acc x => insertByScore x acc) []

/-- `search_knowledge_base`: score the account's articles, keep positive
scores, sort descending by score, return the top 5. -/
def search_knowledge_base (db : List Udahub.Knowledge) (query : String)
    (account_id : String) : List SearchHit :=
  let articles := db.filter (fun a => a.account_id == account_id)
  let results := articles.filterMap (fun a =>
    let score := articleScore query a
    if 0 < score then
      some { article_id := a.article_id, title := a.title, content := a.content,
             tags := a.tags, relevance_score := score }
    else none)
  (sortByScoreDesc results).take 5

/-- The dict `get_article_by_id` returns. -/
inductive ArticleResult
  | ok (article_id : String) (title content tags : Option String)
  | err (msg : String)
deriving DecidableEq

/-- `get_article_by_id`: look up the first article row matching the id. -/
def get_article_by_id (db : List Udahub.Knowledge) (article_id : String) :
    ArticleResult × List Udahub.Knowledge :=
  match db.find? (fun a => a.article_id == article_id) with
  | some a => (.ok a.article_id a.title a.content a.tags, db)
  | none => (.err ("Article with ID " ++ article_id ++ " not found"), db)

end KnowledgeTools

namespace TicketTools

/-- `UDAHUB_DB = "data/core/udahub.db"` in `ticket_tools.py`. -/
def UDAHUB_DB : String := "data/core/udahub.db"

/-- `get_db_session` in `ticket_tools.py`: a session bound to the udahub db. -/
def get_db_session : DbSession := ⟨UDAHUB_DB⟩

/-- The mutation `update_ticket_status` performs on the matched row:
`metadata.status = status`, and `metadata.main_issue_type = issue_type`
only when `issue_type` is truthy (`if issue_type:`). -/
def applyTicketUpdate (status : String) (issue_type : Option String)
    (m : Udahub.TicketMetadata) : Udahub.TicketMetadata :=
  { m with
    status := status
    main_issue_type := if truthy issue_type then issue_type else m.main_issue_type }

/-- Mutate the first row matching the ticket id (the row `.first()` found),
leaving every other row unchanged. -/
def updateFirst (ticket_id status : String) (issue_type : Option String) :
    List Udahub.TicketMetadata → List Udahub.TicketMetadata
  | [] => []
  | m :: rest =>
    if m.ticket_id == ticket_id then applyTicketUpdate status issue_type m :: rest
    else m :: updateFirst ticket_id status issue_type rest

/-- The dict `update_ticket_status` returns. -/
inductive UpdateTicketResult
  | ok (ticket_id new_status : String) (issue_type : Option String)
  | err (msg : String)
deriving DecidableEq

/-- `update_ticket_status`: `commitErr = none` models a successful
`session.commit()`; `commitErr = some e` models `commit` raising an exception
with message `e`, in which case the session is rolled back and the stored
rows are unchanged. Returns the result dict and the database state after
the call. -/
def update_ticket_status (db : List Udahub.TicketMetadata)
    (commitErr : Option String) (ticket_id status : String)
    (issue_type : Option String) : UpdateTicketResult × List Udahub.TicketMetadata :=
  match db.find? (fun m => m.ticket_id == ticket_id) with
  | none => (.err ("Ticket metadata for " ++ ticket_id ++ " not found"), db)
  | some m =>
    match commitErr with
    | some e => (.err ("Failed to update ticket: " ++ e), db)
    | none =>
      (.ok ticket_id status
        (if truthy issue_type then issue_type
         else (applyTicketUpdate status issue_type m).main_issue_type),
       updateFirst ticket_id status issue_type db)

end TicketTools

namespace Workflow

/-- The `create_react_agent(...)` call that builds the course-03 orchestrator,
as far as `workflow.py` configures it. -/
structure ReactAgentConfig where
  agentName : String
  model : String
  checkpointer : Checkpointer
  tools : List String
  promptIsSystemMessage : Bool
deriving DecidableEq

/-- The `ALL_TOOLS` list of `workflow.py` (tool names in declaration order). -/
def ALL_TOOLS : List String :=
  ["search_knowledge_base", "get_article_by_id",
   "get_user_info", "get_user_subscription", "get_user_reservations",
   "get_available_experiences", "get_experience_details",
   "get_ticket_info", "update_ticket_status", "add_ticket_message"]

/-- The `orchestrator` ReAct agent constructed at the bottom of `workflow.py`. -/
def orchestrator : ReactAgentConfig :=
  { agentName := "cultpass_support"
    model := "gpt-4o-mini"
    checkpointer := Checkpointer.memorySaver
    tools := ALL_TOOLS
    promptIsSystemMessage := true }

/-- Which module's `get_db_session` each course-03 database tool calls:
every tool opens its session through the `get_db_session` of its own file. -/
def toolSessions : List (String × DbSession) :=
  [("get_user_info", UserTools.get_db_session),
   ("get_user_subscription", UserTools.get_db_session),
   ("get_user_reservations", UserTools.get_db_session),
   ("get_available_experiences", ExperienceTools.get_db_session),
   ("get_experience_details", ExperienceTools.get_db_session),
   ("search_knowledge_base", KnowledgeTools.get_db_session),
   ("get_article_by_id", KnowledgeTools.get_db_session),
   ("get_ticket_info", TicketTools.get_db_session),
   ("update_ticket_status", TicketTools.get_db_session),
   ("add_ticket_message", TicketTools.get_db_session)]

/-- The tools defined in `user_tools.py` and `experience_tools.py`. -/
def cultpassTools : List String :=
  ["get_user_info", "get_user_subscription", "get_user_reservations",
   "get_available_experiences", "get_experience_details"]

/-- The tools defined in `knowledge_tools.py` and `ticket_tools.py`. -/
def udahubTools : List String :=
  ["search_knowledge_base", "get_article_by_id",
   "get_ticket_info", "update_ticket_status", "add_ticket_message"]

end Workflow

/-- Reading a nullable column as stored (`""` for NULL), without lowercasing.
Only used to state the claimed (not the implemented) relevance formula. -/
def rawField : Option String → String
  | some s => s
  | none => ""

/-- The relevance formula as the claim words it: the query is lowercased and
split, but each term is tested against the article fields as stored (no
lowercasing of title, content or tags). `knowledge_tools.py` instead matches
against the lowercased fields; this definition exists to compare the claim's
wording with `KnowledgeTools.articleScore`. -/
def claimScoreRawFields (query : String) (a : Udahub.Knowledge) : Nat :=
  ((pySplitWs (lowerStr query)).map
    (KnowledgeTools.termScore (rawField a.title) (rawField a.content)
      (rawField a.tags))).sum

/-! ## Helper lemmas -/

/-- Each node's returned dict records its own name in `actions_taken`. -/
theorem nodeUpdate_actions_taken (c : Agent.NodeCall) :
    (Agent.nodeUpdate c).actions_taken = [Agent.nodeName c] := by
  cases c <;> rfl

/-- A successful `find?` splits the list at the found element, with no
earlier match. -/
theorem find?_decomp {α : Type} (p : α → Bool) :
    ∀ (l : List α) (a : α), l.find? p = some a →
      ∃ pre post, l = pre ++ a :: post ∧ ∀ x ∈ pre, p x = false := by
  intro l
  induction l with
  | nil => intro a h; simp [List.find?] at h
  | cons x xs ih =>
    intro a h
    by_cases hx : p x
    · refine ⟨[], xs, ?_, by simp⟩
      simp [List.find?, hx] at h
      simp [h]
    · have hx' : p x = false := by simpa using hx
      rw [List.find?_cons, hx'] at h
      obtain ⟨pre, post, hl, hpre⟩ := ih a h
      refine ⟨x :: pre, post, by simp [hl], ?_⟩
      intro y hy
      rcases List.mem_cons.mp hy with h1 | h2
      · simpa [h1] using hx'
      · exact hpre y h2

/-- `updateFirst` on a list that first matches at the split point rewrites
exactly the matched row. -/
theorem updateFirst_append (tid st : String) (it : Option String)
    (m : Udahub.TicketMetadata) (hm : (m.ticket_id == tid) = true) :
    ∀ (pre post : List Udahub.TicketMetadata),
      (∀ x ∈ pre, (x.ticket_id == tid) = false) →
      TicketTools.updateFirst tid st it (pre ++ m :: post) =
        pre ++ TicketTools.applyTicketUpdate st it m :: post := by
  intro pre
  induction pre with
  | nil =>
    intro post _
    simp [TicketTools.updateFirst, hm]
  | cons x xs ih =>
    intro post hpre
    have hx : (x.ticket_id == tid) = false := hpre x (List.mem_cons_self x xs)
    have hxs : ∀ y ∈ xs, (y.ticket_id == tid) = false := fun y hy =>
      hpre y (List.mem_cons_of_mem x hy)
    simp [TicketTools.updateFirst, hx, ih post hxs]

/-! ## Claim theorems -/

/-- C1 (counterexample): the dispatch table passed to `add_conditional_edges`
from `classify_intent` does not have five string-keyed branches. -/
theorem c1_counterexample_not_five_branches :
    ¬ (Agent.conditionalEdgeMap.length = 5) := by decide

/-- C1 (amended): the intent-routing state graph is a four-branch dispatch
table over string keys: `classify_intent` sets `next_step` by dispatching on
the `intent_type` string (with `qa_agent` as the default), every dispatch
lands on one of the three agent nodes, and the conditional edge from
`classify_intent` maps `next_step` through a dispatch table with exactly four
string-keyed branches. -/
theorem c1_four_branch_dispatch :
    (∀ it : String,
      (Agent.classify_intent it).next_step = some (Agent.classifyNextStep it)) ∧
    Agent.classifyNextStep "qa" = "qa_agent" ∧
    Agent.classifyNextStep "summarization" = "summarization_agent" ∧
    Agent.classifyNextStep "calculation" = "calculation_agent" ∧
    Agent.classifyNextStep "greeting" = "qa_agent" ∧
    (∀ it : String, Agent.classifyNextStep it ∈
      ["qa_agent", "summarization_agent", "calculation_agent"]) ∧
    Agent.create_workflow.conditionalEdgeSource = "classify_intent" ∧
    Agent.create_workflow.conditionalEdges = Agent.conditionalEdgeMap ∧
    Agent.conditionalEdgeMap.length = 4 ∧
    Agent.conditionalEdgeMap.map Prod.fst =
      ["qa_agent", "summarization_agent", "calculation_agent", "end"] := by
  refine ⟨fun it => rfl, by decide, by decide, by decide, by decide, ?_,
    rfl, rfl, by decide, by decide⟩
  intro it
  unfold Agent.classifyNextStep
  split_ifs <;> simp

/-- C6: every course-03 database tool opens its session against exactly one
of the two SQLite schemas: the user and experience tools against the cultpass
database file, the knowledge and ticket tools against the udahub database
file. -/
theorem c6_two_schema_partition :
    UserTools.get_db_session.dbPath = "data/external/cultpass.db" ∧
    ExperienceTools.get_db_session.dbPath = "data/external/cultpass.db" ∧
    KnowledgeTools.get_db_session.dbPath = "data/core/udahub.db" ∧
    TicketTools.get_db_session.dbPath = "data/core/udahub.db" ∧
    (Workflow.toolSessions.filter
      (fun t => t.2.dbPath == "data/external/cultpass.db")).map Prod.fst =
      Workflow.cultpassTools ∧
    (Workflow.toolSessions.filter
      (fun t => t.2.dbPath == "data/core/udahub.db")).map Prod.fst =
      Workflow.udahubTools ∧
    Workflow.toolSessions.all
      (fun t => t.2.dbPath == "data/external/cultpass.db" ||
                t.2.dbPath == "data/core/udahub.db") = true := by
  refine ⟨rfl, rfl, rfl, rfl, by decide, by decide, by decide⟩

/-- C7: the course-01 workflow is compiled with the library's `MemorySaver`
checkpointer and the course-03 orchestrator ReAct agent is constructed with a
`MemorySaver` checkpointer. -/
theorem c7_memory_saver_checkpointers :
    Agent.create_workflow.checkpointer = Checkpointer.memorySaver ∧
    Workflow.orchestrator.checkpointer = Checkpointer.memorySaver :=
  ⟨rfl, rfl⟩

/-- C9: `actions_taken` is append-only: its reducer is list concatenation,
every node function returns `actions_taken` equal to the one-element list of
its own name, and hence any run appends exactly the executed node names in
execution order. -/
theorem c9_actions_taken_append_only :
    (∀ old new : List String, Agent.actionsReducer old new = old ++ new) ∧
    (∀ c : Agent.NodeCall,
      (Agent.nodeUpdate c).actions_taken = [Agent.nodeName c]) ∧
    (∀ (s : Agent.AgentState) (calls : List Agent.NodeCall),
      (Agent.runNodes s calls).actions_taken =
        s.actions_taken ++ calls.map Agent.nodeName) := by
  refine ⟨fun _ _ => rfl, nodeUpdate_actions_taken, ?_⟩
  intro s calls
  induction calls generalizing s with
  | nil => simp [Agent.runNodes]
  | cons c cs ih =>
    have : (Agent.applyNode s (Agent.nodeUpdate c)).actions_taken =
        s.actions_taken ++ [Agent.nodeName c] := by
      simp [Agent.applyNode, Agent.actionsReducer, nodeUpdate_actions_taken]
    simp [Agent.runNodes, ih, this]

/-- C10: `calculate_energy_savings` is total with a guarded division: the
`savings_kwh` computation is exactly the usage difference, `savings_percentage`
is the guarded quotient (0 whenever `current_usage_kwh` is not positive, so
the division happens only under the positivity guard), and the returned dict
is defined for every input, with its fields the rounded values of these
computations. -/
theorem c10_savings_guarded_division :
    (∀ c o : ℚ, EcoHome.savings_kwh c o = c - o) ∧
    (∀ c o : ℚ, EcoHome.savings_percentage c o =
      if 0 < c then (c - o) / c * 100 else 0) ∧
    (∀ o : ℚ, EcoHome.savings_percentage 0 o = 0) ∧
    (∀ (d : String) (c o p : ℚ), EcoHome.calculate_energy_savings d c o p =
      { device_type := d
        current_usage_kwh := c
        optimized_usage_kwh := o
        savings_kwh := pyRound 2 (c - o)
        savings_usd := pyRound 2 ((c - o) * p)
        savings_percentage := pyRound 1 (if 0 < c then (c - o) / c * 100 else 0)
        price_per_kwh := p
        annual_savings_usd := pyRound 2 ((c - o) * p * 365) }) := by
  refine ⟨fun _ _ => rfl, fun _ _ => rfl, ?_, fun _ _ _ _ => rfl⟩
  intro o
  simp [EcoHome.savings_percentage]

/-- C2: for every date argument and every outcome of the random rate
variation, `get_electricity_prices` returns exactly 24 `hourly_rates`
entries, one per hour 0..23; the period is `off_peak` on hours 0-5 and 23,
`peak` on hours 16-20 and `partial_peak` elsewhere; the demand charge is
0.05 exactly on peak hours and 0.0 otherwise; and every entry's total rate
is the rate plus the demand charge, rounded to 3 decimals. -/
theorem c2_electricity_prices_shape :
    ∀ (variation : Nat → ℚ) (today : String) (date : Option String),
      (EcoHome.get_electricity_prices variation today date).hourly_rates.length
        = 24 ∧
      (EcoHome.get_electricity_prices variation today date).hourly_rates.map
        (fun e => e.hour) = List.range 24 ∧
      (EcoHome.get_electricity_prices variation today date).hourly_rates.map
        (fun e => e.period) =
        (List.range 24).map (fun h =>
          if h ≤ 5 ∨ h = 23 then "off_peak"
          else if 16 ≤ h ∧ h ≤ 20 then "peak"
          else "partial_peak") ∧
      (EcoHome.get_electricity_prices variation today date).hourly_rates.map
        (fun e => e.demand_charge) =
        (List.range 24).map (fun h =>
          if 16 ≤ h ∧ h ≤ 20 then (0.05 : ℚ) else (0.0 : ℚ)) ∧
      (EcoHome.get_electricity_prices variation today date).hourly_rates.map
        (fun e => e.total_rate) =
      (EcoHome.get_electricity_prices variation today date).hourly_rates.map
        (fun e => pyRound 3 (e.rate + e.demand_charge)) := by
  intro variation today date
  exact ⟨rfl, rfl, rfl, rfl, rfl⟩

/-- Each forecast day contributes exactly 24 hourly entries. -/
theorem dayHours_length (g : EcoHome.WRand) (day : Nat) :
    (EcoHome.dayHours g day).length = 24 := by
  simp [EcoHome.dayHours]

/-- Every member of `dayHours g day` is the entry generated for some hour
below 24. -/
theorem mem_dayHours {g : EcoHome.WRand} {day : Nat} {e : EcoHome.HourEntry}
    (he : e ∈ EcoHome.dayHours g day) :
    ∃ h, h < 24 ∧ e = EcoHome.mkHourEntry g (g.dayCondition day) day h := by
  simp only [EcoHome.dayHours, List.mem_map, List.mem_range] at he
  obtain ⟨h, hh, rfl⟩ := he
  exact ⟨h, hh, rfl⟩

/-- Filtering one day's hourly block by a day index keeps all of it or none
of it. -/
theorem dayHours_filter_day (g : EcoHome.WRand) (day d : Nat) :
    (EcoHome.dayHours g day).filter (fun e => e.day == d) =
      if day = d then EcoHome.dayHours g day else [] := by
  by_cases hd : day = d
  · subst hd
    rw [if_pos rfl]
    apply List.filter_eq_self.mpr
    intro e he
    obtain ⟨h, -, rfl⟩ := mem_dayHours he
    simp [EcoHome.mkHourEntry]
  · rw [if_neg hd]
    apply List.filter_eq_nil_iff.mpr
    intro e he
    obtain ⟨h, -, rfl⟩ := mem_dayHours he
    simp [EcoHome.mkHourEntry, hd]

/-- Filtering the whole hourly list by a day index leaves exactly that day's
24-entry block (or nothing, past the horizon). -/
theorem hourly_filter_day (g : EcoHome.WRand) (d : Nat) :
    ∀ n : Nat,
      ((List.range n).flatMap (EcoHome.dayHours g)).filter (fun e => e.day == d)
        = if d < n then EcoHome.dayHours g d else [] := by
  intro n
  induction n with
  | zero => simp
  | succ n ih =>
    rw [List.range_succ, List.flatMap_append, List.filter_append, ih]
    simp only [List.flatMap_cons, List.flatMap_nil, List.append_nil]
    rw [dayHours_filter_day]
    by_cases h1 : d < n
    · have h2 : d < n + 1 := Nat.lt_succ_of_lt h1
      have h3 : ¬ (n = d) := by omega
      simp [h1, h2, h3]
    · by_cases h4 : d = n
      · subst h4
        simp [h1]
      · have h5 : ¬ (d < n + 1) := by omega
        have h6 : ¬ (n = d) := fun hc => h4 hc.symm
        simp [h1, h5, h6]

/-- Summing the constant 24 over `range n`. -/
theorem sum_const_24 : ∀ n : Nat, ((List.range n).map (fun _ => (24:Nat))).sum = 24 * n := by
  intro n
  induction n with
  | zero => simp
  | succ n ih =>
    rw [List.range_succ]
    simp [ih]
    omega

/-- C3: for every location, days argument and outcome of the randomization,
`get_weather_forecast` reports `forecast_days` equal to `days` clamped to
1..7, produces one daily entry per forecast day, exactly 24 hourly entries
per forecast day, and zero solar irradiance at every hour outside 6..20. -/
theorem c3_weather_forecast_shape :
    ∀ (g : EcoHome.WRand) (location : String) (days : ℤ),
      (EcoHome.get_weather_forecast g location days).forecast_days
        = max 1 (min 7 days) ∧
      1 ≤ (EcoHome.get_weather_forecast g location days).forecast_days ∧
      (EcoHome.get_weather_forecast g location days).forecast_days ≤ 7 ∧
      (EcoHome.get_weather_forecast g location days).daily.length =
        (EcoHome.get_weather_forecast g location days).forecast_days.toNat ∧
      (EcoHome.get_weather_forecast g location days).hourly.length =
        24 * (EcoHome.get_weather_forecast g location days).forecast_days.toNat ∧
      (∀ d : Nat,
        ((EcoHome.get_weather_forecast g location days).hourly.filter
          (fun e => e.day == d)).length =
          if d < (EcoHome.get_weather_forecast g location days).forecast_days.toNat
          then 24 else 0) ∧
      ((EcoHome.get_weather_forecast g location days).hourly.filter
        (fun e => decide (e.hour < 6 ∨ 20 < e.hour))).all
        (fun e => decide (e.solar_irradiance = 0)) = true := by
  intro g location days
  refine ⟨rfl, le_max_left 1 _, max_le (by norm_num) (min_le_left 7 days),
    by simp [EcoHome.get_weather_forecast], ?_, ?_, ?_⟩
  · show ((List.range (EcoHome.clampDays days).toNat).flatMap
      (EcoHome.dayHours g)).length = 24 * (EcoHome.clampDays days).toNat
    rw [List.length_flatMap]
    rw [show List.map (List.length ∘ EcoHome.dayHours g)
        (List.range (EcoHome.clampDays days).toNat) =
        List.map (fun _ => (24:Nat)) (List.range (EcoHome.clampDays days).toNat)
      from List.map_congr_left (fun a _ => dayHours_length g a)]
    exact sum_const_24 _
  · intro d
    show (((List.range (EcoHome.clampDays days).toNat).flatMap
      (EcoHome.dayHours g)).filter (fun e => e.day == d)).length = _
    rw [hourly_filter_day]
    by_cases hd : d < (EcoHome.clampDays days).toNat
    · rw [if_pos hd, dayHours_length, if_pos (show d <
        (EcoHome.get_weather_forecast g location days).forecast_days.toNat from hd)]
    · rw [if_neg hd, if_neg (show ¬ d <
        (EcoHome.get_weather_forecast g location days).forecast_days.toNat from hd)]
      rfl
  · apply List.all_eq_true.mpr
    intro e he'
    obtain ⟨hmem, hcond⟩ := List.mem_filter.mp he'
    obtain ⟨day, hday, hedh⟩ := List.mem_flatMap.mp hmem
    obtain ⟨h, hh, rfl⟩ := mem_dayHours hedh
    have hhour : (EcoHome.mkHourEntry g (g.dayCondition day) day h).hour = h := rfl
    rw [hhour] at hcond
    have hcond' : h < 6 ∨ 20 < h := of_decide_eq_true hcond
    have hz : (EcoHome.mkHourEntry g (g.dayCondition day) day h).solar_irradiance = 0 := by
      show EcoHome.hourIrradiance g _ day h = 0
      unfold EcoHome.hourIrradiance
      rw [if_neg]
      omega
    simp [hz]

/-- C4: `update_ticket_status` never raises and is atomic: with no matching
`TicketMetadata` row it returns an error dict and leaves the rows unchanged;
when the commit fails it rolls back (rows unchanged) and returns an error
dict; every error return leaves the rows unchanged; and on success exactly
the matched row is rewritten, its status set to the given value and its
`main_issue_type` changed only when a (truthy) `issue_type` is provided,
with a success dict returned. -/
theorem c4_update_ticket_atomic :
    ∀ (db : List Udahub.TicketMetadata) (commitErr : Option String)
      (tid st : String) (it : Option String),
      (db.find? (fun m => m.ticket_id == tid) = none →
        TicketTools.update_ticket_status db commitErr tid st it =
          (.err ("Ticket metadata for " ++ tid ++ " not found"), db)) ∧
      (∀ e : String, commitErr = some e →
        db.find? (fun m => m.ticket_id == tid) ≠ none →
        TicketTools.update_ticket_status db commitErr tid st it =
          (.err ("Failed to update ticket: " ++ e), db)) ∧
      (∀ msg : String,
        (TicketTools.update_ticket_status db commitErr tid st it).1 = .err msg →
        (TicketTools.update_ticket_status db commitErr tid st it).2 = db) ∧
      (∀ m : Udahub.TicketMetadata,
        db.find? (fun m' => m'.ticket_id == tid) = some m → commitErr = none →
        (TicketTools.update_ticket_status db commitErr tid st it).1 =
          .ok tid st (if truthy it then it else m.main_issue_type) ∧
        (∃ pre post, db = pre ++ m :: post ∧
          (TicketTools.update_ticket_status db commitErr tid st it).2 =
            pre ++ TicketTools.applyTicketUpdate st it m :: post) ∧
        (TicketTools.applyTicketUpdate st it m).status = st ∧
        (truthy it = false →
          (TicketTools.applyTicketUpdate st it m).main_issue_type =
            m.main_issue_type)) := by
  intro db commitErr tid st it
  refine ⟨?_, ?_, ?_, ?_⟩
  · intro hnone
    simp [TicketTools.update_ticket_status, hnone]
  · intro e he hsome
    cases hfind : db.find? (fun m => m.ticket_id == tid) with
    | none => exact absurd hfind hsome
    | some m => simp [TicketTools.update_ticket_status, hfind, he]
  · intro msg herr
    cases hfind : db.find? (fun m => m.ticket_id == tid) with
    | none => simp [TicketTools.update_ticket_status, hfind]
    | some m =>
      cases hce : commitErr with
      | some e => simp [TicketTools.update_ticket_status, hfind, hce]
      | none =>
        exfalso
        rw [TicketTools.update_ticket_status, hfind, hce] at herr
        simp at herr
  · intro m hfind hce
    have hpm0 := List.find?_some hfind
    have hpm : (m.ticket_id == tid) = true := hpm0
    obtain ⟨pre, post, hdb, hpre⟩ := find?_decomp _ db m hfind
    have hupd := updateFirst_append tid st it m hpm pre post hpre
    constructor
    · rw [TicketTools.update_ticket_status, hfind, hce]
      by_cases ht : truthy it = true
      · simp [ht]
      · have ht' : truthy it = false := by simpa using ht
        simp [ht', TicketTools.applyTicketUpdate]
    constructor
    · refine ⟨pre, post, hdb, ?_⟩
      rw [TicketTools.update_ticket_status, hfind, hce]
      show TicketTools.updateFirst tid st it db = _
      rw [hdb, hupd]
    constructor
    · rfl
    · intro ht
      simp [TicketTools.applyTicketUpdate, ht]

/-- C4 (witness): the not-found branch of `c4_update_ticket_atomic` at a
concrete call on the empty table. -/
theorem c4_update_ticket_atomic_witness :
    TicketTools.update_ticket_status ([] : List Udahub.TicketMetadata)
      none "tk" "open" none =
      (.err ("Ticket metadata for " ++ "tk" ++ " not found"), []) :=
  (c4_update_ticket_atomic [] none "tk" "open" none).1 rfl

/-- C5: each per-record lookup tool (`get_user_info`, `get_article_by_id`,
`get_experience_details`) always leaves the database unchanged, returns the
matched row's fields when a row with the given key exists, and returns an
error dict naming the missing identifier when no row matches. -/
theorem c5_lookup_tools_roundtrip :
    ∀ (udb : List Cultpass.User) (edb : List Cultpass.Experience)
      (kdb : List Udahub.Knowledge) (email eid aid : String) (now : ℚ),
      (UserTools.get_user_info udb email).2 = udb ∧
      (ExperienceTools.get_experience_details now edb eid).2 = edb ∧
      (KnowledgeTools.get_article_by_id kdb aid).2 = kdb ∧
      (∀ u : Cultpass.User, udb.find? (fun x => x.email == email) = some u →
        (UserTools.get_user_info udb email).1 =
          .ok u.user_id u.full_name u.email u.is_blocked u.created_at) ∧
      (udb.find? (fun x => x.email == email) = none →
        (UserTools.get_user_info udb email).1 =
          .err ("User with email " ++ email ++ " not found")) ∧
      (∀ e : Cultpass.Experience,
        edb.find? (fun x => x.experience_id == eid) = some e →
        (ExperienceTools.get_experience_details now edb eid).1 =
          .ok e.experience_id e.title e.description e.location e.whenAt
            e.slots_available e.is_premium (ExperienceTools.isUpcoming now e.whenAt)) ∧
      (edb.find? (fun x => x.experience_id == eid) = none →
        (ExperienceTools.get_experience_details now edb eid).1 =
          .err ("Experience with ID " ++ eid ++ " not found")) ∧
      (∀ a : Udahub.Knowledge, kdb.find? (fun x => x.article_id == aid) = some a →
        (KnowledgeTools.get_article_by_id kdb aid).1 =
          .ok a.article_id a.title a.content a.tags) ∧
      (kdb.find? (fun x => x.article_id == aid) = none →
        (KnowledgeTools.get_article_by_id kdb aid).1 =
          .err ("Article with ID " ++ aid ++ " not found")) := by
  intro udb edb kdb email eid aid now
  refine ⟨?_, ?_, ?_, ?_, ?_, ?_, ?_, ?_, ?_⟩
  · rw [UserTools.get_user_info]
    cases udb.find? (fun x => x.email == email) <;> rfl
  · rw [ExperienceTools.get_experience_details]
    cases edb.find? (fun x => x.experience_id == eid) <;> rfl
  · rw [KnowledgeTools.get_article_by_id]
    cases kdb.find? (fun x => x.article_id == aid) <;> rfl
  · intro u hu
    rw [UserTools.get_user_info, hu]
  · intro hu
    rw [UserTools.get_user_info, hu]
  · intro e he
    rw [ExperienceTools.get_experience_details, he]
  · intro he
    rw [ExperienceTools.get_experience_details, he]
  · intro a ha
    rw [KnowledgeTools.get_article_by_id, ha]
  · intro ha
    rw [KnowledgeTools.get_article_by_id, ha]

/-- C5 (witness): the theorem at a one-row user table (found case) and empty
article table (not-found case). -/
theorem c5_lookup_tools_roundtrip_witness :
    (UserTools.get_user_info [⟨"u1", "Ana Lima", "ana@x.br", false, none⟩]
      "ana@x.br").1 = .ok "u1" "Ana Lima" "ana@x.br" false none ∧
    (KnowledgeTools.get_article_by_id ([] : List Udahub.Knowledge) "A9").1 =
      .err ("Article with ID " ++ "A9" ++ " not found") :=
  ⟨(c5_lookup_tools_roundtrip [⟨"u1", "Ana Lima", "ana@x.br", false, none⟩]
      [] [] "ana@x.br" "e" "A9" 0).2.2.2.1
      ⟨"u1", "Ana Lima", "ana@x.br", false, none⟩ (by decide),
   (c5_lookup_tools_roundtrip [⟨"u1", "Ana Lima", "ana@x.br", false, none⟩]
      [] [] "ana@x.br" "e" "A9" 0).2.2.2.2.2.2.2.2 rfl⟩

/-- Inserting into a score-descending list only adds the inserted element. -/
theorem mem_insertByScore {x z : KnowledgeTools.SearchHit} :
    ∀ {l : List KnowledgeTools.SearchHit},
      z ∈ KnowledgeTools.insertByScore x l → z = x ∨ z ∈ l := by
  intro l
  induction l with
  | nil =>
    intro h
    simp [KnowledgeTools.insertByScore] at h
    exact Or.inl h
  | cons y ys ih =>
    intro h
    rw [KnowledgeTools.insertByScore] at h
    by_cases hc : x.relevance_score ≤ y.relevance_score
    · rw [if_pos hc] at h
      rcases List.mem_cons.mp h with h1 | h2
      · exact Or.inr (h1 ▸ List.mem_cons_self y ys)
      · rcases ih h2 with h3 | h4
        · exact Or.inl h3
        · exact Or.inr (List.mem_cons_of_mem y h4)
    · rw [if_neg hc] at h
      rcases List.mem_cons.mp h with h1 | h2
      · exact Or.inl h1
      · exact Or.inr h2

/-- Insertion keeps a score-descending list score-descending. -/
theorem pairwise_insertByScore {x : KnowledgeTools.SearchHit} :
    ∀ {l : List KnowledgeTools.SearchHit},
      l.Pairwise (fun a b => b.relevance_score ≤ a.relevance_score) →
      (KnowledgeTools.insertByScore x l).Pairwise
        (fun a b => b.relevance_score ≤ a.relevance_score) := by
  intro l
  induction l with
  | nil =>
    intro _
    simp [KnowledgeTools.insertByScore]
  | cons y ys ih =>
    intro hp
    rw [List.pairwise_cons] at hp
    obtain ⟨hy, hys⟩ := hp
    rw [KnowledgeTools.insertByScore]
    by_cases hc : x.relevance_score ≤ y.relevance_score
    · rw [if_pos hc, List.pairwise_cons]
      refine ⟨?_, ih hys⟩
      intro z hz
      rcases mem_insertByScore hz with rfl | h2
      · exact hc
      · exact hy z h2
    · rw [if_neg hc]
      have hxy : y.relevance_score ≤ x.relevance_score := le_of_not_le hc
      rw [List.pairwise_cons]
      constructor
      · intro z hz
        rcases List.mem_cons.mp hz with rfl | h2
        · exact hxy
        · exact le_trans (hy z h2) hxy
      · rw [List.pairwise_cons]
        exact ⟨hy, hys⟩

/-- The insertion-fold used by `sortByScoreDesc` preserves sortedness. -/
theorem pairwise_sort_fold :
    ∀ (l acc : List KnowledgeTools.SearchHit),
      acc.Pairwise (fun a b => b.relevance_score ≤ a.relevance_score) →
      (l.foldl (fun acc x => KnowledgeTools.insertByScore x acc) acc).Pairwise
        (fun a b => b.relevance_score ≤ a.relevance_score) := by
  intro l
  induction l with
  | nil => intro acc h; simpa using h
  | cons x xs ih => intro acc h; exact ih _ (pairwise_insertByScore h)

/-- `sortByScoreDesc` sorts into non-increasing relevance-score order. -/
theorem sortByScoreDesc_pairwise (l : List KnowledgeTools.SearchHit) :
    (KnowledgeTools.sortByScoreDesc l).Pairwise
      (fun a b => b.relevance_score ≤ a.relevance_score) :=
  pairwise_sort_fold l [] (by simp)

/-- The insertion-fold introduces no new elements. -/
theorem mem_sort_fold :
    ∀ (l acc : List KnowledgeTools.SearchHit) (z : KnowledgeTools.SearchHit),
      z ∈ l.foldl (fun acc x => KnowledgeTools.insertByScore x acc) acc →
      z ∈ acc ∨ z ∈ l := by
  intro l
  induction l with
  | nil => intro acc z h; exact Or.inl (by simpa using h)
  | cons x xs ih =>
    intro acc z h
    rcases ih _ z h with h1 | h2
    · rcases mem_insertByScore h1 with h0 | h3
      · exact Or.inr (h0 ▸ List.mem_cons_self x xs)
      · exact Or.inl h3
    · exact Or.inr (List.mem_cons_of_mem x h2)

/-- Every element of the sorted list came from the input list. -/
theorem mem_sortByScoreDesc {z : KnowledgeTools.SearchHit}
    {l : List KnowledgeTools.SearchHit}
    (h : z ∈ KnowledgeTools.sortByScoreDesc l) : z ∈ l := by
  rcases mem_sort_fold l [] z h with h1 | h2
  · simp at h1
  · exact h2

/-- C8 (counterexample): with an article titled `"Password"` and the query
`"password"`, `search_knowledge_base` returns the article with relevance
score 3, while the claimed formula (terms tested against the fields as
stored, only the query lowercased) gives score 0: the claim's description of
the score, and hence its positivity statement, does not match the code. -/
theorem c8_counterexample_case_sensitivity :
    KnowledgeTools.search_knowledge_base
      [{ account_id := "cultpass", article_id := "A1", title := some "Password",
         content := some "", tags := some "" }] "password" "cultpass" =
      [{ article_id := "A1", title := some "Password", content := some "",
         tags := some "", relevance_score := 3 }] ∧
    claimScoreRawFields "password"
      { account_id := "cultpass", article_id := "A1", title := some "Password",
        content := some "", tags := some "" } = 0 := by
  constructor <;> decide

/-- C8 (amended): `search_knowledge_base` returns at most 5 articles, each
with positive relevance score equal to the sum over the lowercased query's
whitespace-separated terms of 3 if the term occurs in the lowercased title,
plus 2 if it occurs in the lowercased tags, plus 1 if it occurs in the
lowercased content, and the returned list is in non-increasing relevance
score order. -/
theorem c8_search_knowledge_base_amended :
    ∀ (db : List Udahub.Knowledge) (query account_id : String),
      (KnowledgeTools.search_knowledge_base db query account_id).length ≤ 5 ∧
      (∀ h ∈ KnowledgeTools.search_knowledge_base db query account_id,
        0 < h.relevance_score ∧
        h.relevance_score =
          ((pySplitWs (lowerStr query)).map
            (KnowledgeTools.termScore (KnowledgeTools.fieldLower h.title)
              (KnowledgeTools.fieldLower h.content)
              (KnowledgeTools.fieldLower h.tags))).sum) ∧
      (KnowledgeTools.search_knowledge_base db query account_id).Pairwise
        (fun x y => y.relevance_score ≤ x.relevance_score) := by
  intro db query account_id
  have hrepr : KnowledgeTools.search_knowledge_base db query account_id =
      (KnowledgeTools.sortByScoreDesc
        ((db.filter (fun a => a.account_id == account_id)).filterMap (fun a =>
          if 0 < KnowledgeTools.articleScore query a then
            some { article_id := a.article_id, title := a.title,
                   content := a.content, tags := a.tags,
                   relevance_score := KnowledgeTools.articleScore query a }
          else none))).take 5 := rfl
  rw [hrepr]
  refine ⟨List.length_take_le _ _, ?_, ?_⟩
  · intro h hmem
    have hmem' := mem_sortByScoreDesc (List.mem_of_mem_take hmem)
    rw [List.mem_filterMap] at hmem'
    obtain ⟨a, ha, hfa⟩ := hmem'
    by_cases hs : 0 < KnowledgeTools.articleScore query a
    · rw [if_pos hs] at hfa
      simp only [Option.some.injEq] at hfa
      subst hfa
      exact ⟨hs, rfl⟩
    · rw [if_neg hs] at hfa
      exact absurd hfa (by simp)
  · exact (sortByScoreDesc_pairwise _).sublist (List.take_sublist _ _)

/-- C8 (witness): the amended theorem at a one-article knowledge base. -/
theorem c8_search_knowledge_base_amended_witness :
    (KnowledgeTools.search_knowledge_base
      [{ account_id := "cultpass", article_id := "A2", title := some "login help",
         content := some "", tags := some "" }] "login" "cultpass").length ≤ 5 ∧
    0 < ({ article_id := "A2", title := some "login help", content := some "",
           tags := some "", relevance_score := 3 } :
          KnowledgeTools.SearchHit).relevance_score :=
  ⟨(c8_search_knowledge_base_amended
      [{ account_id := "cultpass", article_id := "A2", title := some "login help",
         content := some "", tags := some "" }] "login" "cultpass").1,
   ((c8_search_knowledge_base_amended
      [{ account_id := "cultpass", article_id := "A2", title := some "login help",
         content := some "", tags := some "" }] "login" "cultpass").2.1
      { article_id := "A2", title := some "login help", content := some "",
        tags := some "", relevance_score := 3 } (by decide)).1⟩
